import Mathlib

set_option autoImplicit false

/-!
Shallow embedding of the embedding-ingestion and similarity-search core of the
swifey-ai-sentiment-agent backend (`src/models/embeddings.py` and
`src/app/models/embeddings.py`, plus the Redis profile cache in
`src/app/api/utils/cache.py`), together with proofs settling the frozen
claims about it.

Modelling conventions:
* float arithmetic is modelled by exact rational arithmetic (`ℚ`);
* the CLIP encoder is an external collaborator and enters as a function
  parameter (`encTxt`, `encImg`); image decoding/encoding failure is an
  `Except.error`;
* the Supabase `embeddings` table is a `List EmbeddingRecord` in insertion
  order; an insert/upsert of fresh rows appends, a delete filters;
* stateful methods return their Python result together with the final table,
  so an aborted call is visibly one that left the table unchanged;
* `np.linalg.norm` is `ratSqrt ∘` sum of squares, where `ratSqrt` is the
  exact rational square root (exact on every perfect square; all concrete
  vectors evaluated in this development have perfect-square norms).
-/

namespace Swifey

/-! ## Vectors and similarity -/

/-- `np.dot(a, b)` on equal-length vectors (numpy truncates to the shorter
length, as does `zipWith`). -/
def dot (a b : List ℚ) : ℚ := (List.zipWith (fun x y => x * y) a b).sum

/-- Exact rational square root, modelling the square root inside
`np.linalg.norm`: exact whenever the argument is the square of a rational,
which covers every concrete vector this development evaluates. -/
def ratSqrt (q : ℚ) : ℚ := (Nat.sqrt q.num.toNat : ℚ) / (Nat.sqrt q.den : ℚ)

/-- `np.linalg.norm v`, the Euclidean norm. -/
def l2norm (v : List ℚ) : ℚ := ratSqrt (dot v v)

/-- `float(np.dot(q, r) / (np.linalg.norm(q) * np.linalg.norm(r)))`, the raw
cosine similarity computed by both `search_similar_responses` variants. -/
def cosineSim (q r : List ℚ) : ℚ := dot q r / (l2norm q * l2norm r)

/-! ## The embeddings table -/

/-- One row of the Supabase `embeddings` table, as written by the ingestion
paths (`create_embeddings`, `create_text_embeddings`,
`sync_profile_embeddings`). Timestamps are abstracted to `Nat`. -/
structure EmbeddingRecord where
  user_id : String
  agent_id : Option String
  embedding : List ℚ
  embedding_type : String
  data_type : Option String
  created_at : Nat
  photo_path : Option String
  deriving DecidableEq

/-- The live rows for an `(owner, embedding_type)` key. -/
def liveRecords (db : List EmbeddingRecord) (uid etype : String) :
    List EmbeddingRecord :=
  db.filter (fun r => r.user_id == uid && r.embedding_type == etype)

/-! ## Deletion -/

/-- The Supabase call
`table("embeddings").delete().eq("user_id", uid).in_("embedding_type", types).execute()`.
`fails` models the store being unreachable (the call raising). On success it
returns the deleted rows and the remaining table. -/
def storeDeleteByTypes (fails : Bool) (uid : String) (types : List String)
    (db : List EmbeddingRecord) :
    Except String (List EmbeddingRecord × List EmbeddingRecord) :=
  if fails then Except.error "store unavailable"
  else
    Except.ok
      (db.filter (fun r => r.user_id == uid && types.contains r.embedding_type),
       db.filter (fun r => !(r.user_id == uid && types.contains r.embedding_type)))

/-- `EmbeddingManager.delete_embeddings` (src/app/models/embeddings.py,
lines 160-176): runs the store delete, catches any exception and returns `[]`;
on the error path the table is untouched. Returns (python result, final
table). -/
def delete_embeddings (fails : Bool) (uid : String) (types : List String)
    (db : List EmbeddingRecord) :
    List EmbeddingRecord × List EmbeddingRecord :=
  match storeDeleteByTypes fails uid types db with
  | Except.ok (deleted, db1) => (deleted, db1)
  | Except.error _ => ([], db)

/-! ## Text ingestion (`create_text_embeddings`, src/app/models/embeddings.py) -/

/-- The record `create_text_embeddings` builds for one text item: the raw
encoder output is stored verbatim (there is no normalization step between
`encode_text` and the insert). -/
def mkTextRecord (encTxt : String → List ℚ) (uid agentId etype : String)
    (dtype : Option String) (now : Nat) (item : String) : EmbeddingRecord :=
  { user_id := uid, agent_id := some agentId, embedding := encTxt item,
    embedding_type := etype, data_type := dtype, created_at := now,
    photo_path := none }

/-- `EmbeddingManager.create_text_embeddings` (src/app/models/embeddings.py,
lines 178-227): delete any live rows for `(uid, etype)` (via
`delete_embeddings`, which never raises), encode every item, raise if no row
was built, then upsert the whole batch. Returns (python result, final
table). -/
def create_text_embeddings (deleteFails : Bool) (encTxt : String → List ℚ)
    (items : List String) (uid agentId etype : String) (dtype : Option String)
    (now : Nat) (db : List EmbeddingRecord) :
    Except String (List EmbeddingRecord) × List EmbeddingRecord :=
  let db1 := (delete_embeddings deleteFails uid [etype] db).2
  let rows := items.map (mkTextRecord encTxt uid agentId etype dtype now)
  if rows.isEmpty then
    (Except.error "No valid embeddings were generated", db1)
  else
    (Except.ok rows, db1 ++ rows)

/-! ## Mixed ingestion (`create_embeddings`, src/models/embeddings.py) -/

/-- An ingestion item: raw image bytes or a text. -/
inductive Item where
  | image (bytes : List Nat)
  | text (s : String)
  deriving DecidableEq

/-- Encoding one item. For an image, `PIL.Image.open` / preprocessing /
`encode_image` may fail, which `create_embeddings` re-raises; for a text the
encoder is called directly. -/
def encodeItem (encImg : List Nat → Except String (List ℚ))
    (encTxt : String → List ℚ) : Item → Except String (List ℚ)
  | Item.image b => encImg b
  | Item.text s => Except.ok (encTxt s)

/-- The encode loop of `create_embeddings`: items are processed in order and
the first encode error aborts the whole call. -/
def encodeAll (encImg : List Nat → Except String (List ℚ))
    (encTxt : String → List ℚ) : List Item → Except String (List (List ℚ))
  | [] => Except.ok []
  | it :: rest =>
    match encodeItem encImg encTxt it with
    | Except.error e => Except.error e
    | Except.ok v =>
      match encodeAll encImg encTxt rest with
      | Except.error e => Except.error e
      | Except.ok vs => Except.ok (v :: vs)

/-- `EmbeddingManager.create_embeddings` (src/models/embeddings.py, lines
25-83): encode every item (an encode error is raised and aborts the call
before anything is written -- the insert happens only after the loop), then
insert the batch. There is no delete step on this path. Returns (python
result, final table). -/
def create_embeddings (encImg : List Nat → Except String (List ℚ))
    (encTxt : String → List ℚ) (items : List Item)
    (uid agentId etype : String) (dtype : Option String) (now : Nat)
    (db : List EmbeddingRecord) :
    Except String (List EmbeddingRecord) × List EmbeddingRecord :=
  match encodeAll encImg encTxt items with
  | Except.error e => (Except.error e, db)
  | Except.ok vs =>
    let rows := vs.map (fun v =>
      { user_id := uid, agent_id := some agentId, embedding := v,
        embedding_type := etype, data_type := dtype, created_at := now,
        photo_path := none : EmbeddingRecord })
    (Except.ok rows, db ++ rows)

/-! ## Photo sync (`sync_profile_embeddings`, src/app/models/embeddings.py) -/

/-- The dictionary returned by `sync_profile_embeddings`. -/
structure SyncResult where
  photos_total : Nat
  embeddings_deleted : Nat
  embeddings_created : Nat
  status : String
  deriving DecidableEq

/-- The record upserted for one profile photo (no `agent_id`, unlike the text
path; again the raw encoder output is stored). -/
def mkPhotoRecord (uid : String) (idx : Nat) (emb : List ℚ) (now : Nat)
    (path : String) : EmbeddingRecord :=
  { user_id := uid, agent_id := none, embedding := emb,
    embedding_type := "photo_" ++ toString idx, data_type := some "image",
    created_at := now, photo_path := some path }

/-- One iteration of the photo loop of `sync_profile_embeddings`: fetch the
image (a failed fetch skips the photo), encode it (an encode error is caught
by the per-photo `except` and skips the photo), delete any live row for
`(uid, photo_idx)`, upsert the fresh record and count the success. -/
def syncPhotoStep (fetchImage : String → Option (List Nat))
    (encImg : List Nat → Except String (List ℚ)) (deleteFails : Bool)
    (uid : String) (now : Nat) (acc : Nat × List EmbeddingRecord)
    (ip : Nat × String) : Nat × List EmbeddingRecord :=
  match fetchImage ip.2 with
  | none => acc
  | some bytes =>
    match encImg bytes with
    | Except.error _ => acc
    | Except.ok emb =>
      let db1 := (delete_embeddings deleteFails uid
        ["photo_" ++ toString ip.1] acc.2).2
      (acc.1 + 1, db1 ++ [mkPhotoRecord uid ip.1 emb now ip.2])

/-- `EmbeddingManager.sync_profile_embeddings` (src/app/models/embeddings.py,
lines 51-158): if the profile has no photos, return zero counters; otherwise
delete the embeddings of photos no longer on the profile (last record wins for
a duplicated `photo_path`, as in the Python dict), then run the per-photo
loop over the enumerated photo list. Returns (result, final table). -/
def sync_profile_embeddings (fetchImage : String → Option (List Nat))
    (encImg : List Nat → Except String (List ℚ)) (deleteFails : Bool)
    (uid : String) (photos : List String) (now : Nat)
    (db : List EmbeddingRecord) : SyncResult × List EmbeddingRecord :=
  if photos.isEmpty then
    ({ photos_total := 0, embeddings_deleted := 0, embeddings_created := 0,
       status := "success" }, db)
  else
    let existing := db.filter (fun r =>
      r.user_id == uid && r.embedding_type.startsWith "photo_")
    let existingPaths : List (String × String) :=
      existing.filterMap (fun r => r.photo_path.map (fun p => (p, r.embedding_type)))
    let pathsToDelete :=
      ((existingPaths.map Prod.fst).dedup).filter (fun p => !photos.contains p)
    let typesToDelete :=
      pathsToDelete.filterMap (fun p => (existingPaths.reverse).lookup p)
    let db1 := if pathsToDelete.isEmpty then db
      else (delete_embeddings deleteFails uid typesToDelete db).2
    let fin := photos.enum.foldl
      (syncPhotoStep fetchImage encImg deleteFails uid now) (0, db1)
    ({ photos_total := photos.length, embeddings_deleted := pathsToDelete.length,
       embeddings_created := fin.1, status := "success" }, fin.2)

/-! ## Search results -/

/-- One entry of the `similarities` / `results` list built by
`search_similar_responses` (both variants): the Python dict with its nested
`metadata` flattened into `md_`-prefixed fields. `relative_score` starts at 0
and is overwritten in the post-processing pass; `profile` is attached only on
the app variant. -/
structure SearchResult where
  response_id : String
  similarity_score : ℚ
  relative_score : ℚ
  md_userId : String
  md_embedding_type : String
  md_data_type : String
  md_text : String
  md_timestamp : Nat
  profile : Option String
  deriving DecidableEq

/-- The `meta` dict returned by `search_similar_responses`. -/
structure SearchMeta where
  agent_id : String
  total_matches : Nat
  filtered_count : Nat
  max_similarity : ℚ
  mean_similarity : ℚ
  query_response : String
  deriving DecidableEq

/-- The full return value of `search_similar_responses`. -/
structure SearchOutcome where
  results : List SearchResult
  meta : SearchMeta
  deriving DecidableEq

/-- The comparator of `results.sort(key=lambda x: x["similarity_score"],
reverse=True)`: a stable sort that puts higher scores first. -/
def sortLe (a b : SearchResult) : Bool :=
  decide (b.similarity_score ≤ a.similarity_score)

/-! ## Search, app variant (src/app/models/embeddings.py, lines 288-427) -/

/-- The body of the candidate loop of the app `search_similar_responses`
for one table row: skip the requester's own rows, skip a missing/empty
embedding, skip a dimension mismatch, compute the raw cosine similarity and
keep the row only when it exceeds the absolute floor `0.1`. -/
def candidateOfApp (query : List ℚ) (uid : String) (r : EmbeddingRecord) :
    Option SearchResult :=
  if r.user_id = uid then none
  else if r.embedding.isEmpty then none
  else if r.embedding.length ≠ query.length then none
  else if (0.1 : ℚ) < cosineSim query r.embedding then
    some { response_id := r.user_id,
           similarity_score := cosineSim query r.embedding,
           relative_score := 0, md_userId := r.user_id,
           md_embedding_type := r.embedding_type,
           md_data_type := r.data_type.getD "", md_text := "",
           md_timestamp := r.created_at, profile := none }
  else none

/-- The post-processing of the app `search_similar_responses`: on an empty
candidate list return empty results and zero stats; otherwise compute
`max`/`mean`, attach `relative_score` and the owner profile to every
candidate, sort by descending `similarity_score` and truncate to `per_page`.
`total_matches` is the pre-truncation candidate count. -/
def processApp (profiles : String → Option String) (agentId response : String)
    (perPage : Nat) (sims : List SearchResult) : SearchOutcome :=
  match sims with
  | [] =>
    { results := [],
      meta := { agent_id := agentId, total_matches := 0, filtered_count := 0,
                max_similarity := 0, mean_similarity := 0,
                query_response := response } }
  | s0 :: rest =>
    let maxScore := rest.foldl (fun m s => max m s.similarity_score)
      s0.similarity_score
    let meanScore := ((s0 :: rest).map (fun s => s.similarity_score)).sum /
      ((s0 :: rest).length : ℚ)
    let withRel := (s0 :: rest).map (fun s =>
      { s with
        relative_score := if 0 < maxScore then s.similarity_score / maxScore else 0,
        profile := profiles s.response_id })
    let results := (withRel.mergeSort sortLe).take perPage
    { results := results,
      meta := { agent_id := agentId, total_matches := (s0 :: rest).length,
                filtered_count := results.length, max_similarity := maxScore,
                mean_similarity := meanScore, query_response := response } }

/-- `EmbeddingManager.search_similar_responses`
(src/app/models/embeddings.py, lines 288-427): encode the query, scan the
whole `embeddings` table (no filter is applied on this variant), build the
candidate list and post-process it. `profiles` is the external profile store
for the metadata join. -/
def searchSimilarResponsesApp (encTxt : String → List ℚ)
    (profiles : String → Option String) (response uid agentId : String)
    (perPage : Nat) (db : List EmbeddingRecord) : SearchOutcome :=
  processApp profiles agentId response perPage
    (db.filterMap (candidateOfApp (encTxt response) uid))

/-- The Record Store operations the app `search_similar_responses` issues, in
order: every call unconditionally scans the whole `embeddings` table and the
`profiles` table, and fetches the candidate owners' profiles again when
candidates exist. No cache of any kind is consulted on this path. -/
inductive StoreOp where
  | scanEmbeddings
  | scanProfiles
  deriving DecidableEq

/-- The store traffic of one app `search_similar_responses` call (same
arguments as the function itself; the trace does not depend on any earlier
call, because the function keeps no cache). -/
def searchAppStoreOps (encTxt : String → List ℚ) (response uid : String)
    (db : List EmbeddingRecord) : List StoreOp :=
  StoreOp.scanEmbeddings :: StoreOp.scanProfiles ::
    (if (db.filterMap (candidateOfApp (encTxt response) uid)).isEmpty then []
     else [StoreOp.scanProfiles])

/-! ## Search, src/models variant (src/models/embeddings.py, lines 144-292) -/

/-- The columns a `filters` entry may constrain via `.eq(key, value)`. -/
inductive FilterKey where
  | user_id
  | agent_id
  | embedding_type
  | data_type
  deriving DecidableEq

/-- One `.eq(key, value)` filter applied to a row. -/
def matchesFilter (r : EmbeddingRecord) : FilterKey × String → Bool
  | (FilterKey.user_id, v) => r.user_id == v
  | (FilterKey.agent_id, v) => r.agent_id == some v
  | (FilterKey.embedding_type, v) => r.embedding_type == v
  | (FilterKey.data_type, v) => r.data_type == some v

/-- The candidate loop body of the src/models `search_similar_responses`:
no self-exclusion and no similarity floor; only empty embeddings and
dimension mismatches are skipped. -/
def candidateOfModels (query : List ℚ) (r : EmbeddingRecord) :
    Option SearchResult :=
  if r.embedding.isEmpty then none
  else if r.embedding.length ≠ query.length then none
  else
    some { response_id := r.user_id,
           similarity_score := cosineSim query r.embedding,
           relative_score := 0, md_userId := r.user_id,
           md_embedding_type := r.embedding_type,
           md_data_type := r.data_type.getD "", md_text := "",
           md_timestamp := r.created_at, profile := none }

/-- The post-processing of the src/models `search_similar_responses`:
compute `max`/`mean`, attach `relative_score` (0 when the maximum is not
positive), keep only candidates with `relative_score >= 0.5`, sort by
descending `similarity_score` and truncate to `per_page`. -/
def processModels (agentId response : String) (perPage : Nat)
    (sims : List SearchResult) : SearchOutcome :=
  match sims with
  | [] =>
    { results := [],
      meta := { agent_id := agentId, total_matches := 0, filtered_count := 0,
                max_similarity := 0, mean_similarity := 0,
                query_response := response } }
  | s0 :: rest =>
    let maxScore := rest.foldl (fun m s => max m s.similarity_score)
      s0.similarity_score
    let meanScore := ((s0 :: rest).map (fun s => s.similarity_score)).sum /
      ((s0 :: rest).length : ℚ)
    let withRel := (s0 :: rest).map (fun s =>
      { s with
        relative_score := if 0 < maxScore then s.similarity_score / maxScore else 0 })
    let filtered := withRel.filter (fun s => decide ((0.5 : ℚ) ≤ s.relative_score))
    let results := (filtered.mergeSort sortLe).take perPage
    { results := results,
      meta := { agent_id := agentId, total_matches := (s0 :: rest).length,
                filtered_count := results.length, max_similarity := maxScore,
                mean_similarity := meanScore, query_response := response } }

/-- The pre-sort `results` list of the src/models `search_similar_responses`
(the same value the corresponding branch of `processModels` sorts and
truncates): the candidates with `relative_score` attached, kept when it is at
least `0.5`. -/
def modelsFiltered (sims : List SearchResult) : List SearchResult :=
  match sims with
  | [] => []
  | s0 :: rest =>
    let maxScore := rest.foldl (fun m s => max m s.similarity_score)
      s0.similarity_score
    ((s0 :: rest).map (fun s =>
      { s with
        relative_score := if 0 < maxScore then s.similarity_score / maxScore else 0 })).filter
      (fun s => decide ((0.5 : ℚ) ≤ s.relative_score))

/-- `EmbeddingManager.search_similar_responses` (src/models/embeddings.py,
lines 144-292): encode the query, select the rows with the given `agent_id`
that pass the extra `filters`, build the candidate list (this variant takes
no requester `user_id` at all) and post-process it. -/
def searchSimilarResponsesModels (encTxt : String → List ℚ)
    (response agentId : String) (perPage : Nat)
    (filters : List (FilterKey × String)) (db : List EmbeddingRecord) :
    SearchOutcome :=
  processModels agentId response perPage
    ((db.filter (fun r =>
        r.agent_id == some agentId && filters.all (matchesFilter r))).filterMap
      (candidateOfModels (encTxt response)))

/-! ## The Redis profile cache (`src/app/api/utils/cache.py`) -/

/-- The Redis keyspace, as an association list (a present entry models a key
whose TTL has not yet expired; expiry itself is enforced by Redis, an
external collaborator). Profiles travel as their JSON serialization, so the
`json.dumps`/`json.loads` round trip is the identity on the stored string. -/
structure RedisState where
  entries : List (String × String)
  deriving DecidableEq

/-- `redis_client.get k`. -/
def redisGet (st : RedisState) (k : String) : Option String :=
  (st.entries.find? (fun p => p.1 == k)).map Prod.snd

/-- `redis_client.setex k ttl v` (the TTL bookkeeping lives inside Redis). -/
def redisSetex (st : RedisState) (k v : String) : RedisState :=
  { entries := (k, v) :: st.entries.filter (fun p => p.1 != k) }

/-- The database branch of `get_user_by_id`: fetch the profile row; when it
exists, write it through to the cache; one DB fetch either way. -/
def fetchAndCache (dbProfiles : String → Option String) (st : RedisState)
    (uid key : String) : Option String × RedisState × Nat :=
  match dbProfiles uid with
  | some p => (some p, redisSetex st key p, 1)
  | none => (none, st, 1)

/-- `get_user_by_id` (src/app/api/utils/cache.py, lines 16-52): an
exact-key profile cache. A non-empty cached value under
`"user_profile:" ++ uid` is returned without touching the database (the
Python truthiness test sends an empty cached string to the DB branch);
otherwise the profile is fetched from the database and cached. Returns
(profile, new cache state, number of DB fetches). -/
def get_user_by_id (dbProfiles : String → Option String) (st : RedisState)
    (uid : String) : Option String × RedisState × Nat :=
  let key := "user_profile:" ++ uid
  match redisGet st key with
  | some cached =>
    if cached = "" then fetchAndCache dbProfiles st uid key
    else (some cached, st, 0)
  | none => fetchAndCache dbProfiles st uid key

/-! ## Helper lemmas: sorting and membership in the search pipelines -/

theorem sortLe_trans (a b c : SearchResult) (hab : sortLe a b) (hbc : sortLe b c) :
    sortLe a c := by
  simp only [sortLe, decide_eq_true_eq] at *
  exact le_trans hbc hab

theorem sortLe_total (a b : SearchResult) : sortLe a b || sortLe b a := by
  simp only [sortLe, Bool.or_eq_true, decide_eq_true_eq]
  exact le_total b.similarity_score a.similarity_score

theorem sorted_take_mergeSort (l : List SearchResult) (pp : Nat) :
    List.Pairwise (fun a b => b.similarity_score ≤ a.similarity_score)
      ((l.mergeSort sortLe).take pp) ∧
    ((l.mergeSort sortLe).take pp).length ≤ pp := by
  refine ⟨?_, List.length_take_le pp _⟩
  have hs := @List.sorted_mergeSort SearchResult sortLe sortLe_trans
    sortLe_total l
  exact (hs.imp (fun h => by
    simpa [sortLe, decide_eq_true_eq] using h)).take

theorem mem_take_mergeSort {l : List SearchResult} {pp : Nat} {r : SearchResult}
    (h : r ∈ (l.mergeSort sortLe).take pp) : r ∈ l :=
  (l.mergeSort_perm sortLe).mem_iff.mp (List.mem_of_mem_take h)

theorem processApp_mem {profiles : String → Option String}
    {agentId response : String} {pp : Nat} {sims : List SearchResult}
    {r : SearchResult}
    (h : r ∈ (processApp profiles agentId response pp sims).results) :
    ∃ s ∈ sims, r.response_id = s.response_id ∧ r.md_userId = s.md_userId ∧
      r.similarity_score = s.similarity_score := by
  cases sims with
  | nil => simp [processApp] at h
  | cons s0 rest =>
    simp only [processApp] at h
    have h1 := mem_take_mergeSort h
    obtain ⟨s, hs, rfl⟩ := List.mem_map.mp h1
    exact ⟨s, hs, rfl, rfl, rfl⟩

theorem processModels_mem {agentId response : String} {pp : Nat}
    {sims : List SearchResult} {r : SearchResult}
    (h : r ∈ (processModels agentId response pp sims).results) :
    ∃ s ∈ sims, r.response_id = s.response_id ∧ r.md_userId = s.md_userId ∧
      r.similarity_score = s.similarity_score := by
  cases sims with
  | nil => simp [processModels] at h
  | cons s0 rest =>
    simp only [processModels] at h
    have h1 := List.mem_of_mem_filter (mem_take_mergeSort h)
    obtain ⟨s, hs, rfl⟩ := List.mem_map.mp h1
    exact ⟨s, hs, rfl, rfl, rfl⟩

theorem candidateOfApp_eq_some {query : List ℚ} {uid : String}
    {r : EmbeddingRecord} {s : SearchResult}
    (h : candidateOfApp query uid r = some s) :
    r.user_id ≠ uid ∧ s.response_id = r.user_id ∧ s.md_userId = r.user_id ∧
      s.similarity_score = cosineSim query r.embedding ∧
      (0.1 : ℚ) < s.similarity_score := by
  unfold candidateOfApp at h
  split_ifs at h with h1 h2 h3 h4
  injection h with h
  subst h
  exact ⟨h1, rfl, rfl, rfl, h4⟩

theorem candidateOfModels_eq_some {query : List ℚ} {r : EmbeddingRecord}
    {s : SearchResult} (h : candidateOfModels query r = some s) :
    s.response_id = r.user_id ∧ s.md_userId = r.user_id ∧
      s.similarity_score = cosineSim query r.embedding := by
  unfold candidateOfModels at h
  split_ifs at h
  injection h with h
  subst h
  exact ⟨rfl, rfl, rfl⟩

theorem processApp_countP (profiles : String → Option String)
    (agentId response : String) (pp : Nat) (sims : List SearchResult)
    (o : String) (h : sims.length ≤ pp) :
    ((processApp profiles agentId response pp sims).results.countP
        (fun r => r.response_id == o)) =
      sims.countP (fun r => r.response_id == o) := by
  cases sims with
  | nil => simp [processApp]
  | cons s0 rest =>
    simp only [processApp]
    rw [List.take_of_length_le
      (by rw [List.length_mergeSort, List.length_map]; exact h)]
    rw [((s0 :: rest).map _).mergeSort_perm sortLe |>.countP_eq]
    rw [List.countP_map]
    rfl

theorem processModels_results_eq (agentId response : String) (pp : Nat)
    (sims : List SearchResult) :
    (processModels agentId response pp sims).results =
      ((modelsFiltered sims).mergeSort sortLe).take pp := by
  cases sims with
  | nil => simp [processModels, modelsFiltered]
  | cons s0 rest => rfl

theorem processModels_countP (agentId response : String) (pp : Nat)
    (sims : List SearchResult) (o : String)
    (h : (modelsFiltered sims).length ≤ pp) :
    ((processModels agentId response pp sims).results.countP
        (fun r => r.response_id == o)) =
      (modelsFiltered sims).countP (fun r => r.response_id == o) := by
  rw [processModels_results_eq]
  rw [List.take_of_length_le (by rw [List.length_mergeSort]; exact h)]
  exact ((modelsFiltered sims).mergeSort_perm sortLe).countP_eq _

theorem encodeAll_ok_mem (encImg : List Nat → Except String (List ℚ))
    (encTxt : String → List ℚ) {items : List Item} {vs : List (List ℚ)}
    (h : encodeAll encImg encTxt items = Except.ok vs) :
    ∀ v ∈ vs, ∃ it ∈ items, encodeItem encImg encTxt it = Except.ok v := by
  induction items generalizing vs with
  | nil =>
    simp only [encodeAll, Except.ok.injEq] at h
    subst h
    simp
  | cons a rest ih =>
    cases ha : encodeItem encImg encTxt a with
    | error e => simp [encodeAll, ha] at h
    | ok v =>
      cases hr : encodeAll encImg encTxt rest with
      | error e => simp [encodeAll, ha, hr] at h
      | ok vs2 =>
        simp only [encodeAll, ha, hr, Except.ok.injEq] at h
        subst h
        intro w hw
        cases hw with
        | head => exact ⟨a, by simp, ha⟩
        | tail _ hw2 =>
          obtain ⟨it, hit, h2⟩ := ih hr w hw2
          exact ⟨it, by simp [hit], h2⟩

theorem processApp_sorted (profiles : String → Option String)
    (agentId response : String) (pp : Nat) (sims : List SearchResult) :
    List.Pairwise (fun a b => b.similarity_score ≤ a.similarity_score)
      (processApp profiles agentId response pp sims).results ∧
    (processApp profiles agentId response pp sims).results.length ≤ pp := by
  cases sims with
  | nil => simp [processApp]
  | cons s0 rest => simpa only [processApp] using sorted_take_mergeSort _ pp

theorem processModels_sorted (agentId response : String) (pp : Nat)
    (sims : List SearchResult) :
    List.Pairwise (fun a b => b.similarity_score ≤ a.similarity_score)
      (processModels agentId response pp sims).results ∧
    (processModels agentId response pp sims).results.length ≤ pp := by
  cases sims with
  | nil => simp [processModels]
  | cons s0 rest => simpa only [processModels] using sorted_take_mergeSort _ pp

theorem processApp_page_zero (profiles : String → Option String)
    (agentId response : String) (sims : List SearchResult) :
    (processApp profiles agentId response 0 sims).results = [] ∧
    (processApp profiles agentId response 0 sims).meta.total_matches =
      sims.length := by
  cases sims with
  | nil => simp [processApp]
  | cons s0 rest => simp [processApp]

theorem processModels_page_zero (agentId response : String)
    (sims : List SearchResult) :
    (processModels agentId response 0 sims).results = [] ∧
    (processModels agentId response 0 sims).meta.total_matches =
      sims.length := by
  cases sims with
  | nil => simp [processModels]
  | cons s0 rest => simp [processModels]

/-! ## C1: the requester never appears in their own results -/

/-- C1: for every search call by a requester, the requester's own owner id
never appears in the returned results: the app `search_similar_responses`
(the variant that takes the requester's `user_id`) drops every row owned by
the requester before scoring, so no returned entry has `response_id` (or the
metadata `userId`) equal to the requester. -/
theorem search_app_never_returns_requester
    (encTxt : String → List ℚ) (profiles : String → Option String)
    (response uid agentId : String) (perPage : Nat)
    (db : List EmbeddingRecord) :
    ∀ r ∈ (searchSimilarResponsesApp encTxt profiles response uid agentId
        perPage db).results, r.response_id ≠ uid ∧ r.md_userId ≠ uid := by
  intro r hr
  simp only [searchSimilarResponsesApp] at hr
  obtain ⟨s, hs, hrid, hmid, _⟩ := processApp_mem hr
  obtain ⟨rec, _, hcand⟩ := List.mem_filterMap.mp hs
  obtain ⟨hne, hsid, hsmid, _, _⟩ := candidateOfApp_eq_some hcand
  rw [hrid, hsid, hmid, hsmid]
  exact ⟨hne, hne⟩

/-! ## C7: results are sorted by descending score and truncated -/

/-- C7: for every search call (both variants), the returned results list is
non-increasing in `similarity_score` and has at most `per_page` entries. -/
theorem search_results_sorted_and_truncated
    (encTxt : String → List ℚ) (profiles : String → Option String)
    (response uid agentId : String) (perPage : Nat)
    (filters : List (FilterKey × String)) (db : List EmbeddingRecord) :
    (List.Pairwise (fun a b => b.similarity_score ≤ a.similarity_score)
        (searchSimilarResponsesApp encTxt profiles response uid agentId
          perPage db).results ∧
      (searchSimilarResponsesApp encTxt profiles response uid agentId
        perPage db).results.length ≤ perPage) ∧
    (List.Pairwise (fun a b => b.similarity_score ≤ a.similarity_score)
        (searchSimilarResponsesModels encTxt response agentId perPage
          filters db).results ∧
      (searchSimilarResponsesModels encTxt response agentId perPage
        filters db).results.length ≤ perPage) :=
  ⟨processApp_sorted _ _ _ _ _, processModels_sorted _ _ _ _⟩

/-! ## C9: boundary behaviour of search -/

/-- C9: a search with `per_page = 0` returns an empty results list while
`meta.total_matches` still reports the full pre-truncation candidate count,
and a search over an empty record set returns empty results and zero stats
without an error, on both `search_similar_responses` variants. -/
theorem search_boundary_behavior
    (encTxt : String → List ℚ) (profiles : String → Option String)
    (response uid agentId : String) (perPage : Nat)
    (filters : List (FilterKey × String)) (db : List EmbeddingRecord) :
    ((searchSimilarResponsesApp encTxt profiles response uid agentId
        0 db).results = [] ∧
      (searchSimilarResponsesApp encTxt profiles response uid agentId
          0 db).meta.total_matches =
        (db.filterMap (candidateOfApp (encTxt response) uid)).length) ∧
    ((searchSimilarResponsesModels encTxt response agentId 0
        filters db).results = [] ∧
      (searchSimilarResponsesModels encTxt response agentId 0
          filters db).meta.total_matches =
        ((db.filter (fun r => r.agent_id == some agentId &&
            filters.all (matchesFilter r))).filterMap
          (candidateOfModels (encTxt response))).length) ∧
    ((searchSimilarResponsesApp encTxt profiles response uid agentId
        perPage []).results = [] ∧
      (searchSimilarResponsesApp encTxt profiles response uid agentId
          perPage []).meta.total_matches = 0 ∧
      (searchSimilarResponsesApp encTxt profiles response uid agentId
          perPage []).meta.max_similarity = 0 ∧
      (searchSimilarResponsesApp encTxt profiles response uid agentId
          perPage []).meta.mean_similarity = 0) ∧
    ((searchSimilarResponsesModels encTxt response agentId perPage
        filters []).results = [] ∧
      (searchSimilarResponsesModels encTxt response agentId perPage
          filters []).meta.total_matches = 0 ∧
      (searchSimilarResponsesModels encTxt response agentId perPage
          filters []).meta.max_similarity = 0 ∧
      (searchSimilarResponsesModels encTxt response agentId perPage
          filters []).meta.mean_similarity = 0) := by
  refine ⟨?_, ?_, ?_, ?_⟩
  · exact processApp_page_zero _ _ _ _
  · exact processModels_page_zero _ _ _
  · simp [searchSimilarResponsesApp, processApp]
  · simp [searchSimilarResponsesModels, processModels]

/-! ## A concrete world for witnesses and counterexamples -/

/-- A toy deterministic text encoder mapping every input to the unit vector
`[1, 0]`. -/
def encUnit : String → List ℚ := fun _ => [1, 0]

/-- A toy text encoder mapping every input to `[3, 4]` (Euclidean norm 5). -/
def encV34 : String → List ℚ := fun _ => [3, 4]

/-- An empty external profile store. -/
def noProfiles : String → Option String := fun _ => none

/-- A record owned by the requester "A". -/
def recA : EmbeddingRecord :=
  { user_id := "A", agent_id := some "ag", embedding := [1, 0],
    embedding_type := "text", data_type := some "text", created_at := 0,
    photo_path := none }

/-- A first record owned by "B". -/
def recB0 : EmbeddingRecord :=
  { user_id := "B", agent_id := some "ag", embedding := [1, 0],
    embedding_type := "photo_0", data_type := some "image", created_at := 0,
    photo_path := none }

/-- A second record owned by the same "B". -/
def recB1 : EmbeddingRecord :=
  { user_id := "B", agent_id := some "ag", embedding := [1, 0],
    embedding_type := "photo_1", data_type := some "image", created_at := 0,
    photo_path := none }

/-- A record owned by "B" with the non-unit vector `[3, 4]`. -/
def recB34 : EmbeddingRecord :=
  { user_id := "B", agent_id := some "ag", embedding := [3, 4],
    embedding_type := "text", data_type := some "text", created_at := 0,
    photo_path := none }

theorem nat_sqrt_one : Nat.sqrt 1 = 1 := by
  rw [show (1 : ℕ) = 1 * 1 by norm_num, Nat.sqrt_eq]

theorem nat_sqrt_25 : Nat.sqrt 25 = 5 := by
  rw [show (25 : ℕ) = 5 * 5 by norm_num, Nat.sqrt_eq]

theorem ratSqrt_one : ratSqrt 1 = 1 := by
  unfold ratSqrt
  norm_num [nat_sqrt_one]

theorem ratSqrt_25 : ratSqrt 25 = 5 := by
  unfold ratSqrt
  norm_num [show Int.toNat 25 = 25 from rfl, nat_sqrt_25]

theorem dot_unit_unit : dot [1, 0] [1, 0] = 1 := by
  norm_num [dot]

theorem dot_unit_34 : dot [1, 0] [3, 4] = 3 := by
  norm_num [dot]

theorem dot_34_34 : dot [3, 4] [3, 4] = 25 := by
  norm_num [dot]

theorem cos_unit_unit : cosineSim [1, 0] [1, 0] = 1 := by
  norm_num [cosineSim, l2norm, dot_unit_unit, ratSqrt_one]

theorem cos_unit_34 : cosineSim [1, 0] [3, 4] = 3 / 5 := by
  norm_num [cosineSim, l2norm, dot_unit_unit, dot_unit_34, dot_34_34,
    ratSqrt_one, ratSqrt_25]

/-- The candidate entry produced for `recB0` under query `[1, 0]`. -/
def entB0 : SearchResult :=
  { response_id := "B", similarity_score := 1, relative_score := 0,
    md_userId := "B", md_embedding_type := "photo_0", md_data_type := "image",
    md_text := "", md_timestamp := 0, profile := none }

/-- The candidate entry produced for `recB1` under query `[1, 0]`. -/
def entB1 : SearchResult :=
  { response_id := "B", similarity_score := 1, relative_score := 0,
    md_userId := "B", md_embedding_type := "photo_1", md_data_type := "image",
    md_text := "", md_timestamp := 0, profile := none }

/-- The candidate entry produced for `recB34` under query `[1, 0]`. -/
def entB34 : SearchResult :=
  { response_id := "B", similarity_score := 3 / 5, relative_score := 0,
    md_userId := "B", md_embedding_type := "text", md_data_type := "text",
    md_text := "", md_timestamp := 0, profile := none }

theorem cand_recA : candidateOfApp [1, 0] "A" recA = none := by
  simp [candidateOfApp, recA]

theorem cand_recB0 : candidateOfApp [1, 0] "A" recB0 = some entB0 := by
  simp only [candidateOfApp, recB0, entB0]
  norm_num [cos_unit_unit, show (("B" : String) = "A") = False from by simp]

theorem cand_recB1 : candidateOfApp [1, 0] "A" recB1 = some entB1 := by
  simp only [candidateOfApp, recB1, entB1]
  norm_num [cos_unit_unit, show (("B" : String) = "A") = False from by simp]

theorem cand_recB34 : candidateOfApp [1, 0] "A" recB34 = some entB34 := by
  simp only [candidateOfApp, recB34, entB34]
  norm_num [cos_unit_34, show (("B" : String) = "A") = False from by simp]

theorem sims_A_B0 :
    [recA, recB0].filterMap (candidateOfApp [1, 0] "A") = [entB0] := by
  simp [List.filterMap_cons, cand_recA, cand_recB0]

theorem sims_B0_B1 :
    [recB0, recB1].filterMap (candidateOfApp [1, 0] "A") = [entB0, entB1] := by
  simp [List.filterMap_cons, cand_recB0, cand_recB1]

theorem sims_B34 :
    [recB34].filterMap (candidateOfApp [1, 0] "A") = [entB34] := by
  simp [List.filterMap_cons, cand_recB34]

/-- `entB0` as it appears in the final results (relative score attached). -/
def entB0p : SearchResult :=
  { response_id := "B", similarity_score := 1, relative_score := 1,
    md_userId := "B", md_embedding_type := "photo_0", md_data_type := "image",
    md_text := "", md_timestamp := 0, profile := none }

/-- `entB34` as it appears in the final results (relative score attached). -/
def entB34p : SearchResult :=
  { response_id := "B", similarity_score := 3 / 5, relative_score := 1,
    md_userId := "B", md_embedding_type := "text", md_data_type := "text",
    md_text := "", md_timestamp := 0, profile := none }

theorem results_A_B0 :
    (searchSimilarResponsesApp encUnit noProfiles "q" "A" "ag" 5
      [recA, recB0]).results = [entB0p] := by
  simp only [searchSimilarResponsesApp, encUnit]
  rw [sims_A_B0]
  simp only [processApp]
  norm_num [entB0, entB0p, noProfiles, List.mergeSort_singleton]

theorem results_B34 :
    (searchSimilarResponsesApp encUnit noProfiles "q" "A" "ag" 20
      [recB34]).results = [entB34p] := by
  simp only [searchSimilarResponsesApp, encUnit]
  rw [sims_B34]
  simp only [processApp]
  norm_num [entB34, entB34p, noProfiles, List.mergeSort_singleton]

/-- `entB1` as it appears in the final results (relative score attached). -/
def entB1p : SearchResult :=
  { response_id := "B", similarity_score := 1, relative_score := 1,
    md_userId := "B", md_embedding_type := "photo_1", md_data_type := "image",
    md_text := "", md_timestamp := 0, profile := none }

theorem candM_recB0 : candidateOfModels [1, 0] recB0 = some entB0 := by
  simp only [candidateOfModels, recB0, entB0]
  norm_num [cos_unit_unit]

theorem candM_recB1 : candidateOfModels [1, 0] recB1 = some entB1 := by
  simp only [candidateOfModels, recB1, entB1]
  norm_num [cos_unit_unit]

theorem candM_recB34 : candidateOfModels [1, 0] recB34 = some entB34 := by
  simp only [candidateOfModels, recB34, entB34]
  norm_num [cos_unit_34]

theorem rowsModels_B0_B1 :
    [recB0, recB1].filter (fun r => r.agent_id == some "ag" &&
      List.all [] (matchesFilter r)) = [recB0, recB1] := by
  simp [recB0, recB1]

theorem candsModels_B0_B1 :
    [recB0, recB1].filterMap (candidateOfModels [1, 0]) = [entB0, entB1] := by
  simp [List.filterMap_cons, candM_recB0, candM_recB1]

theorem modelsFiltered_B0_B1 :
    modelsFiltered [entB0, entB1] = [entB0p, entB1p] := by
  simp only [modelsFiltered]
  norm_num [entB0, entB1, entB0p, entB1p]

theorem rowsModels_B34 :
    [recB34].filter (fun r => r.agent_id == some "ag" &&
      List.all [] (matchesFilter r)) = [recB34] := by
  simp [recB34]

theorem candsModels_B34 :
    [recB34].filterMap (candidateOfModels [1, 0]) = [entB34] := by
  simp [List.filterMap_cons, candM_recB34]

theorem modelsFiltered_B34 : modelsFiltered [entB34] = [entB34p] := by
  simp only [modelsFiltered]
  norm_num [entB34, entB34p]

theorem resultsModels_B34 :
    (searchSimilarResponsesModels encUnit "q" "ag" 20 []
      [recB34]).results = [entB34p] := by
  simp only [searchSimilarResponsesModels, encUnit]
  rw [rowsModels_B34, candsModels_B34, processModels_results_eq,
    modelsFiltered_B34]
  simp [List.mergeSort_singleton]

/-- Witness for C1 at a concrete input: requester "A" searches a table
holding one of A's own records and one of B's; the single returned entry is
B's, not A's. -/
theorem search_app_never_returns_requester_witness :
    entB0p.response_id ≠ "A" ∧ entB0p.md_userId ≠ "A" :=
  search_app_never_returns_requester encUnit noProfiles "q" "A" "ag" 5
    [recA, recB0] entB0p (by rw [results_A_B0]; simp)

/-! ## C2: owners are not deduplicated -/

/-- C2 counterexample: a table with two live records owned by the same "B"
(photo slots 0 and 1), searched by "A" with `per_page = 20`, returns owner
"B" twice in a single page, so at most-one-record-per-owner fails. -/
theorem search_app_owner_repeats_cex :
    1 < ((searchSimilarResponsesApp encUnit noProfiles "q" "A" "ag" 20
        [recB0, recB1]).results.countP (fun r => r.response_id == "B")) := by
  have h := processApp_countP noProfiles "ag" "q" 20 [entB0, entB1] "B"
    (by norm_num)
  simp only [searchSimilarResponsesApp, encUnit]
  rw [sims_B0_B1, h]
  simp [entB0, entB1, List.countP_cons]

/-- C2 amended: no owner deduplication is performed on either search
variant: on the app variant every candidate record contributes its own entry
to the returned page, and on the src/models variant every candidate that
passes its relative-score filter (the pre-sort results list,
`modelsFiltered`) contributes its own entry; in both cases, whenever that
kept list fits within the page, an owner appears exactly as many times as it
has kept records -- not at most once with its best-scoring record. -/
theorem search_no_owner_dedup :
    (∀ (encTxt : String → List ℚ) (profiles : String → Option String)
       (response uid agentId : String) (perPage : Nat)
       (db : List EmbeddingRecord) (o : String),
       (db.filterMap (candidateOfApp (encTxt response) uid)).length ≤
         perPage →
       ((searchSimilarResponsesApp encTxt profiles response uid agentId
           perPage db).results.countP (fun r => r.response_id == o)) =
         ((db.filterMap (candidateOfApp (encTxt response) uid)).countP
           (fun r => r.response_id == o))) ∧
    (∀ (encTxt : String → List ℚ) (response agentId : String)
       (perPage : Nat) (filters : List (FilterKey × String))
       (db : List EmbeddingRecord) (o : String),
       (modelsFiltered ((db.filter (fun r => r.agent_id == some agentId &&
           filters.all (matchesFilter r))).filterMap
         (candidateOfModels (encTxt response)))).length ≤ perPage →
       ((searchSimilarResponsesModels encTxt response agentId perPage
           filters db).results.countP (fun r => r.response_id == o)) =
         ((modelsFiltered ((db.filter (fun r =>
             r.agent_id == some agentId &&
             filters.all (matchesFilter r))).filterMap
           (candidateOfModels (encTxt response)))).countP
           (fun r => r.response_id == o))) := by
  constructor
  · intro encTxt profiles response uid agentId perPage db o h
    simp only [searchSimilarResponsesApp]
    exact processApp_countP _ _ _ _ _ _ h
  · intro encTxt response agentId perPage filters db o h
    simp only [searchSimilarResponsesModels]
    exact processModels_countP _ _ _ _ _ h

/-- Witness for the amended C2 at concrete inputs: on both variants, both of
B's candidate records survive into the returned page. -/
theorem search_no_owner_dedup_witness :
    (((searchSimilarResponsesApp encUnit noProfiles "q" "A" "ag" 20
        [recB0, recB1]).results.countP (fun r => r.response_id == "B")) =
      (([recB0, recB1].filterMap (candidateOfApp (encUnit "q") "A")).countP
        (fun r => r.response_id == "B"))) ∧
    (((searchSimilarResponsesModels encUnit "q" "ag" 20 []
        [recB0, recB1]).results.countP (fun r => r.response_id == "B")) =
      ((modelsFiltered (([recB0, recB1].filter (fun r =>
          r.agent_id == some "ag" &&
          List.all [] (matchesFilter r))).filterMap
        (candidateOfModels (encUnit "q")))).countP
        (fun r => r.response_id == "B"))) :=
  ⟨search_no_owner_dedup.1 encUnit noProfiles "q" "A" "ag" 20 [recB0, recB1]
     "B" (by simp only [encUnit]; rw [sims_B0_B1]; norm_num),
   search_no_owner_dedup.2 encUnit "q" "ag" 20 [] [recB0, recB1] "B"
     (by simp only [encUnit]
         rw [rowsModels_B0_B1, candsModels_B0_B1, modelsFiltered_B0_B1]
         norm_num)⟩

/-! ## C6: the score is the raw cosine, not `(ip + 1) / 2` -/

/-- C6 counterexample: for the record with stored vector `[3, 4]` and query
`[1, 0]`, the attached `similarity_score` is the raw cosine `3/5`, while the
claimed `(innerProduct + 1) / 2` mapping of that same inner product would
give `4/5`: the returned score is not the claimed mapping. -/
theorem search_app_score_mapping_cex :
    ((searchSimilarResponsesApp encUnit noProfiles "q" "A" "ag" 20
        [recB34]).results.map (fun r => r.similarity_score)) = [3 / 5] ∧
    (cosineSim (encUnit "q") recB34.embedding + 1) / 2 ≠ (3 / 5 : ℚ) := by
  have hc : cosineSim (encUnit "q") recB34.embedding = 3 / 5 := by
    simp only [encUnit, recB34]
    exact cos_unit_34
  constructor
  · rw [results_B34]
    simp [entB34p]
  · rw [hc]
    norm_num

/-- C6 amended: on both search variants, the `similarity_score` attached to
every returned entry is the raw cosine similarity
`dot(q, r) / (norm(q) * norm(r))` of the query embedding and some table
record's stored embedding -- no `(innerProduct + 1) / 2` mapping is applied
anywhere -- and on the app variant the score moreover exceeds the absolute
candidate floor `0.1`. -/
theorem search_scores_are_raw_cosine :
    (∀ (encTxt : String → List ℚ) (profiles : String → Option String)
       (response uid agentId : String) (perPage : Nat)
       (db : List EmbeddingRecord),
       ∀ r ∈ (searchSimilarResponsesApp encTxt profiles response uid agentId
           perPage db).results,
         (∃ rec ∈ db, r.similarity_score = cosineSim (encTxt response)
           rec.embedding) ∧ (0.1 : ℚ) < r.similarity_score) ∧
    (∀ (encTxt : String → List ℚ) (response agentId : String)
       (perPage : Nat) (filters : List (FilterKey × String))
       (db : List EmbeddingRecord),
       ∀ r ∈ (searchSimilarResponsesModels encTxt response agentId perPage
           filters db).results,
         ∃ rec ∈ db, r.similarity_score = cosineSim (encTxt response)
           rec.embedding) := by
  constructor
  · intro encTxt profiles response uid agentId perPage db r hr
    simp only [searchSimilarResponsesApp] at hr
    obtain ⟨s, hs, _, _, hscore⟩ := processApp_mem hr
    obtain ⟨rec, hrec, hcand⟩ := List.mem_filterMap.mp hs
    obtain ⟨_, _, _, hcos, hgt⟩ := candidateOfApp_eq_some hcand
    refine ⟨⟨rec, hrec, ?_⟩, ?_⟩
    · rw [hscore, hcos]
    · rw [hscore]
      exact hgt
  · intro encTxt response agentId perPage filters db r hr
    simp only [searchSimilarResponsesModels] at hr
    obtain ⟨s, hs, _, _, hscore⟩ := processModels_mem hr
    obtain ⟨rec, hrec, hcand⟩ := List.mem_filterMap.mp hs
    obtain ⟨_, _, hcos⟩ := candidateOfModels_eq_some hcand
    exact ⟨rec, List.mem_of_mem_filter hrec, by rw [hscore, hcos]⟩

/-- Witness for the amended C6 at concrete inputs: on both variants the
returned entry for the `[3, 4]` record carries the raw cosine of the query
and that record. -/
theorem search_scores_are_raw_cosine_witness :
    ((∃ rec ∈ [recB34], entB34p.similarity_score =
        cosineSim (encUnit "q") rec.embedding) ∧
      (0.1 : ℚ) < entB34p.similarity_score) ∧
    (∃ rec ∈ [recB34], entB34p.similarity_score =
      cosineSim (encUnit "q") rec.embedding) :=
  ⟨search_scores_are_raw_cosine.1 encUnit noProfiles "q" "A" "ag" 20
     [recB34] entB34p (by rw [results_B34]; simp),
   search_scores_are_raw_cosine.2 encUnit "q" "ag" 20 [] [recB34] entB34p
     (by rw [resultsModels_B34]; simp)⟩

/-! ## C3: stored vectors are not L2-normalized -/

/-- C3 counterexample: with an encoder returning `[3, 4]` (Euclidean norm 5),
the record stored by `create_text_embeddings` still has norm 5: the stored
vector is not L2-normalized, and 5 is not within 1e-5 of 1. -/
theorem ingestion_not_normalized_cex :
    ((create_text_embeddings false encV34 ["bio"] "A" "ag" "text" none 0
        []).2.map (fun r => l2norm r.embedding)) = [5] ∧
    ¬ (|(5 : ℚ) - 1| ≤ 1 / 100000) := by
  constructor
  · simp [create_text_embeddings, delete_embeddings, storeDeleteByTypes,
      mkTextRecord, encV34, l2norm, dot_34_34, ratSqrt_25]
  · norm_num

/-- C3 amended: no ingestion path applies L2-normalization: the table after
`create_text_embeddings` is the delete-survivors followed by one record per
item storing the raw encoder output verbatim, and every row present after
`create_embeddings` (src/models) is either a pre-existing row or stores,
verbatim, the encoder's output for one of the ingested items. -/
theorem ingestion_stores_raw_encoder_output :
    (∀ (deleteFails : Bool) (encTxt : String → List ℚ)
       (items : List String) (uid agentId etype : String)
       (dtype : Option String) (now : Nat) (db : List EmbeddingRecord),
       items ≠ [] →
       (create_text_embeddings deleteFails encTxt items uid agentId etype
           dtype now db).2 =
         (delete_embeddings deleteFails uid [etype] db).2 ++
           items.map (mkTextRecord encTxt uid agentId etype dtype now) ∧
       ∀ item ∈ items,
         (mkTextRecord encTxt uid agentId etype dtype now item).embedding =
           encTxt item) ∧
    (∀ (encImg : List Nat → Except String (List ℚ))
       (encTxt : String → List ℚ) (items : List Item)
       (uid agentId etype : String) (dtype : Option String) (now : Nat)
       (db : List EmbeddingRecord) (r : EmbeddingRecord),
       r ∈ (create_embeddings encImg encTxt items uid agentId etype dtype
         now db).2 →
       r ∈ db ∨ ∃ it ∈ items,
         encodeItem encImg encTxt it = Except.ok r.embedding) := by
  constructor
  · intro deleteFails encTxt items uid agentId etype dtype now db h
    constructor
    · have hne : (items.map (mkTextRecord encTxt uid agentId etype dtype
          now)).isEmpty = false := by
        simp [List.isEmpty_iff, h]
      simp [create_text_embeddings, hne]
    · intro item _
      rfl
  · intro encImg encTxt items uid agentId etype dtype now db r hr
    cases hall : encodeAll encImg encTxt items with
    | error e =>
      simp only [create_embeddings, hall] at hr
      exact Or.inl hr
    | ok vs =>
      simp only [create_embeddings, hall, List.mem_append] at hr
      cases hr with
      | inl h1 => exact Or.inl h1
      | inr h2 =>
        obtain ⟨v, hv, rfl⟩ := List.mem_map.mp h2
        obtain ⟨it, hit, hok⟩ := encodeAll_ok_mem encImg encTxt hall v hv
        exact Or.inr ⟨it, hit, hok⟩

/-- An image encoder that always succeeds with the unit vector. -/
def encImgOk : List Nat → Except String (List ℚ) := fun _ => Except.ok [1, 0]

/-- The row stored by the concrete `create_embeddings` run below. -/
def recIngested : EmbeddingRecord :=
  { user_id := "A", agent_id := some "ag", embedding := [1, 0],
    embedding_type := "text", data_type := none, created_at := 0,
    photo_path := none }

theorem create_embeddings_table_bio :
    (create_embeddings encImgOk encUnit [Item.text "bio"] "A" "ag" "text"
      none 0 []).2 = [recIngested] := by
  simp [create_embeddings, encodeAll, encodeItem, encUnit, recIngested]

/-- Witness for the amended C3 at concrete inputs, covering both ingestion
paths. -/
theorem ingestion_stores_raw_encoder_output_witness :
    ((create_text_embeddings false encV34 ["bio"] "A" "ag" "text" none 0
        []).2 =
      (delete_embeddings false "A" ["text"] []).2 ++
        ["bio"].map (mkTextRecord encV34 "A" "ag" "text" none 0) ∧
     ∀ item ∈ ["bio"],
       (mkTextRecord encV34 "A" "ag" "text" none 0 item).embedding =
         encV34 item) ∧
    (recIngested ∈ ([] : List EmbeddingRecord) ∨
      ∃ it ∈ [Item.text "bio"],
        encodeItem encImgOk encUnit it = Except.ok recIngested.embedding) :=
  ⟨ingestion_stores_raw_encoder_output.1 false encV34 ["bio"] "A" "ag"
     "text" none 0 [] (by simp),
   ingestion_stores_raw_encoder_output.2 encImgOk encUnit [Item.text "bio"]
     "A" "ag" "text" none 0 [] recIngested
     (by rw [create_embeddings_table_bio]; simp)⟩

/-! ## C4: upsert-by-replacement holds only on the text path -/

/-- C4 counterexample: `create_embeddings` (src/models) has no delete step,
so ingesting the same ("A", "text") key twice sequentially leaves two live
records for that key, not one. -/
theorem create_embeddings_no_upsert_cex :
    (liveRecords (create_embeddings encImgOk encUnit [Item.text "bio"] "A"
        "ag" "text" none 0
        ((create_embeddings encImgOk encUnit [Item.text "bio"] "A" "ag"
          "text" none 0 []).2)).2 "A" "text").length = 2 := by
  simp [create_embeddings, encodeAll, encodeItem, liveRecords, encUnit]

/-- C4 amended: the delete-then-insert upsert does hold on the
`create_text_embeddings` path: ingesting one item for the same
`(owner, embedding_type)` key twice sequentially (with a functioning store)
leaves exactly one live record for that key; the `create_embeddings` path of
src/models, by contrast, inserts without deleting (see the
counterexample). -/
theorem create_text_embeddings_upsert_replaces
    (encTxt : String → List ℚ) (item : String) (uid agentId etype : String)
    (dtype : Option String) (now now2 : Nat) (db : List EmbeddingRecord) :
    (liveRecords (create_text_embeddings false encTxt [item] uid agentId
        etype dtype now2
        ((create_text_embeddings false encTxt [item] uid agentId etype dtype
          now db).2)).2 uid etype).length = 1 := by
  have hset : ∀ (d : List EmbeddingRecord) (k : Nat),
      (create_text_embeddings false encTxt [item] uid agentId etype dtype
        k d).2 =
      d.filter (fun r =>
        !(r.user_id == uid && [etype].contains r.embedding_type)) ++
        [mkTextRecord encTxt uid agentId etype dtype k item] := by
    intro d k
    simp [create_text_embeddings, delete_embeddings, storeDeleteByTypes]
  rw [hset, hset]
  simp only [liveRecords, List.filter_append, List.filter_filter]
  simp [mkTextRecord]

/-! ## C5: an encode error aborts `create_embeddings`, only the photo sync
is per-item -/

/-- An image encoder that always fails, as on corrupt image bytes. -/
def encImgBad : List Nat → Except String (List ℚ) :=
  fun _ => Except.error "cannot identify image file"

/-- C5 counterexample: a batch of a corrupt image followed by a healthy text
item, ingested through `create_embeddings`: the encode error is raised (the
call returns the error, not a per-item status list) and the healthy sibling
is not stored (the table stays empty). -/
theorem create_embeddings_batch_abort_cex :
    (create_embeddings encImgBad encUnit [Item.image [0], Item.text "ok"]
        "A" "ag" "selfie" none 0 []).1 =
      Except.error "cannot identify image file" ∧
    (create_embeddings encImgBad encUnit [Item.image [0], Item.text "ok"]
        "A" "ag" "selfie" none 0 []).2 = [] := by
  constructor
  · simp [create_embeddings, encodeAll, encodeItem, encImgBad]
  · simp [create_embeddings, encodeAll, encodeItem, encImgBad]

theorem encodeAll_mem_error (encImg : List Nat → Except String (List ℚ))
    (encTxt : String → List ℚ) (items : List Item) (it : Item) (e : String)
    (hmem : it ∈ items)
    (herr : encodeItem encImg encTxt it = Except.error e) :
    ∃ msg, encodeAll encImg encTxt items = Except.error msg := by
  induction items with
  | nil => cases hmem
  | cons a rest ih =>
    cases hmem with
    | head => exact ⟨e, by simp [encodeAll, herr]⟩
    | tail _ hmem2 =>
      rcases ih hmem2 with ⟨msg, hmsg⟩
      cases ha : encodeItem encImg encTxt a with
      | error e2 => exact ⟨e2, by simp [encodeAll, ha]⟩
      | ok v => exact ⟨msg, by simp [encodeAll, ha, hmsg]⟩

/-- C5 amended: an encode error during `create_embeddings` is raised and
aborts the whole batch -- the call returns the error and writes nothing, so
sibling items are neither processed into the table nor reported in a status
list. Per-item failure handling exists only in `sync_profile_embeddings`,
whose per-photo `except` skips a failing photo while the healthy sibling is
still encoded, counted and stored. -/
theorem encode_failure_aborts_create_but_sync_is_per_item :
    (∀ (encImg : List Nat → Except String (List ℚ))
       (encTxt : String → List ℚ) (items : List Item)
       (uid agentId etype : String) (dtype : Option String) (now : Nat)
       (db : List EmbeddingRecord) (it : Item) (e : String),
       it ∈ items → encodeItem encImg encTxt it = Except.error e →
       (∃ msg, (create_embeddings encImg encTxt items uid agentId etype dtype
          now db).1 = Except.error msg) ∧
       (create_embeddings encImg encTxt items uid agentId etype dtype now
          db).2 = db) ∧
    (∀ (fetchImage : String → Option (List Nat))
       (encImg : List Nat → Except String (List ℚ)) (uid p1 p2 : String)
       (b1 b2 : List Nat) (e : String) (emb : List ℚ) (now : Nat)
       (db : List EmbeddingRecord),
       fetchImage p1 = some b1 → encImg b1 = Except.error e →
       fetchImage p2 = some b2 → encImg b2 = Except.ok emb →
       (sync_profile_embeddings fetchImage encImg false uid [p1, p2] now
          db).1.embeddings_created = 1 ∧
       (sync_profile_embeddings fetchImage encImg false uid [p1, p2] now
          db).1.status = "success" ∧
       ∃ pre, (sync_profile_embeddings fetchImage encImg false uid [p1, p2]
          now db).2 = pre ++ [mkPhotoRecord uid 1 emb now p2]) := by
  constructor
  · intro encImg encTxt items uid agentId etype dtype now db it e hmem herr
    rcases encodeAll_mem_error encImg encTxt items it e hmem herr with
      ⟨msg, hmsg⟩
    constructor
    · exact ⟨msg, by simp [create_embeddings, hmsg]⟩
    · simp [create_embeddings, hmsg]
  · intro fetchImage encImg uid p1 p2 b1 b2 e emb now db h1 h2 h3 h4
    refine ⟨?_, ?_, ?_⟩ <;>
      simp [sync_profile_embeddings, List.enum_cons, List.enumFrom,
        syncPhotoStep, h1, h2, h3, h4]

/-- A fetcher with one bad and one good photo path. -/
def fetchW : String → Option (List Nat) :=
  fun p => if p = "bad.jpg" then some [0] else some [1]

/-- An image encoder that fails exactly on the bad photo's bytes. -/
def encImgW : List Nat → Except String (List ℚ) :=
  fun b => if b = [0] then Except.error "cannot identify image file"
           else Except.ok [1, 0]

/-- Witness for the amended C5 at concrete inputs: the corrupt-image batch
aborts `create_embeddings` storing nothing, while the photo sync with one bad
and one good photo stores the good one and counts one success. -/
theorem encode_failure_aborts_create_but_sync_is_per_item_witness :
    ((∃ msg, (create_embeddings encImgBad encUnit
        [Item.image [0], Item.text "ok"] "A" "ag" "selfie" none 0 []).1 =
          Except.error msg) ∧
      (create_embeddings encImgBad encUnit [Item.image [0], Item.text "ok"]
        "A" "ag" "selfie" none 0 []).2 = []) ∧
    ((sync_profile_embeddings fetchW encImgW false "A"
        ["bad.jpg", "good.jpg"] 0 []).1.embeddings_created = 1 ∧
      (sync_profile_embeddings fetchW encImgW false "A"
        ["bad.jpg", "good.jpg"] 0 []).1.status = "success" ∧
      ∃ pre, (sync_profile_embeddings fetchW encImgW false "A"
        ["bad.jpg", "good.jpg"] 0 []).2 =
          pre ++ [mkPhotoRecord "A" 1 [1, 0] 0 "good.jpg"]) :=
  ⟨encode_failure_aborts_create_but_sync_is_per_item.1 encImgBad encUnit
      [Item.image [0], Item.text "ok"] "A" "ag" "selfie" none 0 []
      (Item.image [0]) "cannot identify image file" (by simp) rfl,
   encode_failure_aborts_create_but_sync_is_per_item.2 fetchW encImgW "A"
      "bad.jpg" "good.jpg" [0] [1] "cannot identify image file" [1, 0] 0 []
      (by simp [fetchW]) (by simp [encImgW]) (by simp [fetchW])
      (by simp [encImgW])⟩

/-! ## C8: no semantic query cache; the only cache is exact-key -/

/-- C8 counterexample: with the deterministic toy encoder, a second query
whose vector has cosine similarity 1 (≥ 0.95) to the first query still scans
the embeddings store -- the search path consults no cache of any kind, so the
second call never returns a cached result set. -/
theorem no_semantic_cache_cex :
    cosineSim (encUnit "hiking buddy") (encUnit "hiking pal") = 1 ∧
    StoreOp.scanEmbeddings ∈
      searchAppStoreOps encUnit "hiking pal" "A" [recB0] := by
  constructor
  · simp only [encUnit]
    exact cos_unit_unit
  · simp [searchAppStoreOps]

/-- C8 amended: there is no semantic query cache: every call of the app
`search_similar_responses` unconditionally scans the embeddings store,
whatever the query and whatever ran before. The only cache on the query path
is the exact-key Redis profile cache of `get_user_by_id`: a non-empty cached
profile is returned with zero DB fetches and unchanged cache state, and after
a miss that found a profile, an immediate second lookup of the same user id
is served from the cache with zero DB fetches. -/
theorem search_uncached_profile_cache_exact_key :
    (∀ (encTxt : String → List ℚ) (response uid : String)
       (db : List EmbeddingRecord),
       StoreOp.scanEmbeddings ∈ searchAppStoreOps encTxt response uid db) ∧
    (∀ (dbProfiles : String → Option String) (st : RedisState)
       (uid cached : String),
       redisGet st ("user_profile:" ++ uid) = some cached → cached ≠ "" →
       get_user_by_id dbProfiles st uid = (some cached, st, 0)) ∧
    (∀ (dbProfiles : String → Option String) (st : RedisState)
       (uid p : String),
       redisGet st ("user_profile:" ++ uid) = none →
       dbProfiles uid = some p → p ≠ "" →
       get_user_by_id dbProfiles st uid =
         (some p, redisSetex st ("user_profile:" ++ uid) p, 1) ∧
       get_user_by_id dbProfiles
           (redisSetex st ("user_profile:" ++ uid) p) uid =
         (some p, redisSetex st ("user_profile:" ++ uid) p, 0)) := by
  refine ⟨?_, ?_, ?_⟩
  · intro encTxt response uid db
    simp [searchAppStoreOps]
  · intro dbProfiles st uid cached hget hne
    simp [get_user_by_id, hget, hne]
  · intro dbProfiles st uid p hget hdb hne
    have hg2 : redisGet (redisSetex st ("user_profile:" ++ uid) p)
        ("user_profile:" ++ uid) = some p := by
      simp [redisGet, redisSetex]
    constructor
    · simp [get_user_by_id, hget, fetchAndCache, hdb]
    · simp [get_user_by_id, hg2, hne]

/-- A one-profile external database. -/
def dbProfW : String → Option String :=
  fun u => if u = "u1" then some "json-of-u1" else none

/-- Witness for the amended C8 at concrete inputs: the search scans the store
on a repeat query, and the profile cache serves the second lookup of "u1"
with zero DB fetches. -/
theorem search_uncached_profile_cache_exact_key_witness :
    StoreOp.scanEmbeddings ∈ searchAppStoreOps encUnit "q" "A" [recB0] ∧
    (get_user_by_id dbProfW { entries := [] } "u1" =
      (some "json-of-u1",
       redisSetex { entries := [] } ("user_profile:" ++ "u1") "json-of-u1",
       1) ∧
     get_user_by_id dbProfW
        (redisSetex { entries := [] } ("user_profile:" ++ "u1")
          "json-of-u1") "u1" =
      (some "json-of-u1",
       redisSetex { entries := [] } ("user_profile:" ++ "u1") "json-of-u1",
       0)) :=
  ⟨search_uncached_profile_cache_exact_key.1 encUnit "q" "A" [recB0],
   search_uncached_profile_cache_exact_key.2.2 dbProfW { entries := [] }
     "u1" "json-of-u1" rfl (by simp [dbProfW]) (by simp)⟩

/-! ## C10: `delete_embeddings` never raises and the upsert still inserts -/

/-- C10: `delete_embeddings` never raises: on a store failure it catches the
exception and returns `[]` with the table untouched -- the very `[]` a
successful delete that matched nothing also returns, so the caller cannot
distinguish "nothing to delete" from "delete failed" -- and
`create_text_embeddings` with a failing delete step still proceeds to insert
its fresh rows (returning them as a success). -/
theorem delete_embeddings_never_raises :
    (∀ (uid : String) (types : List String) (db : List EmbeddingRecord),
       delete_embeddings true uid types db = ([], db)) ∧
    (∀ (uid : String) (types : List String) (db : List EmbeddingRecord),
       (∀ r ∈ db, ¬(r.user_id = uid ∧ r.embedding_type ∈ types)) →
       delete_embeddings false uid types db = ([], db)) ∧
    (∀ (encTxt : String → List ℚ) (items : List String)
       (uid agentId etype : String) (dtype : Option String) (now : Nat)
       (db : List EmbeddingRecord), items ≠ [] →
       (create_text_embeddings true encTxt items uid agentId etype dtype now
          db).2 =
         db ++ items.map (mkTextRecord encTxt uid agentId etype dtype now) ∧
       (create_text_embeddings true encTxt items uid agentId etype dtype now
          db).1 =
         Except.ok (items.map (mkTextRecord encTxt uid agentId etype dtype
           now))) := by
  refine ⟨?_, ?_, ?_⟩
  · intro uid types db
    simp [delete_embeddings, storeDeleteByTypes]
  · intro uid types db h
    simp only [delete_embeddings, storeDeleteByTypes]
    simp
    constructor
    · intro a ha hu hm
      exact h a ha ⟨hu, hm⟩
    · intro a ha
      by_cases hu : a.user_id = uid
      · exact Or.inr (fun hm => h a ha ⟨hu, hm⟩)
      · exact Or.inl hu
  · intro encTxt items uid agentId etype dtype now db h
    have hne : (items.map (mkTextRecord encTxt uid agentId etype dtype
        now)).isEmpty = false := by
      simp [List.isEmpty_iff, h]
    constructor
    · simp [create_text_embeddings, delete_embeddings, storeDeleteByTypes,
        hne]
    · simp [create_text_embeddings, delete_embeddings, storeDeleteByTypes,
        hne]

/-- Witness for C10 at concrete inputs: the failing delete leaves `[recB0]`
untouched and returns `[]`, exactly as the successful delete that matches
nothing does, and the upsert after a failed delete still appends its row. -/
theorem delete_embeddings_never_raises_witness :
    delete_embeddings true "A" ["text"] [recB0] = ([], [recB0]) ∧
    delete_embeddings false "A" ["text"] [recB0] = ([], [recB0]) ∧
    (create_text_embeddings true encUnit ["bio"] "A" "ag" "text" none 0
        [recB0]).2 =
      [recB0] ++ ["bio"].map (mkTextRecord encUnit "A" "ag" "text" none 0) :=
  ⟨delete_embeddings_never_raises.1 "A" ["text"] [recB0],
   delete_embeddings_never_raises.2.1 "A" ["text"] [recB0]
     (by intro r hr; simp at hr; subst hr; simp [recB0]),
   (delete_embeddings_never_raises.2.2 encUnit ["bio"] "A" "ag" "text" none 0
     [recB0] (by simp)).1⟩

end Swifey
